import Mathlib

/-!
Verification of the bq24195 battery-charger driver (`src/lib.rs`).

The driver is embedded shallowly:

* Each Rust `#[repr(u8)]` enum becomes a Lean inductive with
  `intoU8` (the `Into<u8>` impl, i.e. `self as u8`) and `fromU8`
  (the `From<u8>` impl).  The `From` impls in the source are
  `unsafe { mem::transmute(val & MASK) }`; a transmute is defined only
  when the masked value is the discriminant of an actual variant, so
  `fromU8` returns an `Option`, with `none` modelling a transmute to a
  discriminant that has no variant (undefined behaviour in Rust).
  `ThermistorFault`'s `From` impl is a plain `match`, hence total.

* Each `bitfield!` register becomes a structure holding the raw byte as
  a `Nat` (kept `< 256`), with getters/setters generated the way the
  `bitfield` crate generates them: getter extracts the bit range and
  decodes, setter encodes, masks to the field width and read-modify-writes
  the byte.

* The I2C bus (`embedded_hal::blocking::i2c`) is modelled as a pair of
  response functions, and every driver operation returns the list of bus
  transactions it issues together with its `Result`.
-/

/-- Bit mask of width `w`: `w` low bits set. -/
def fieldMask (w : Nat) : Nat := 2 ^ w - 1

/-- Getter of the `bitfield` crate for a field of width `w` at low bit `lsb`:
`(byte >> lsb) & mask`. -/
def getBits (b lsb w : Nat) : Nat := (b >>> lsb) &&& fieldMask w

/-- Setter of the `bitfield` crate for a field of width `w` at low bit `lsb`
of a `u8` storage: `(byte & !(mask << lsb)) | ((v & mask) << lsb)` where `!`
is complement within 8 bits. -/
def setBits (b lsb w v : Nat) : Nat :=
  (b &&& (255 ^^^ (fieldMask w <<< lsb))) ||| ((v &&& fieldMask w) <<< lsb)

/-- REG01 etc. register addresses (`enum Register`, lib.rs lines 35-47). -/
inductive Register where
  | InputSourceControl
  | PowerOnConfiguration
  | ChargeCurrentControl
  | PreChargeTerminationCurrentControl
  | ChargeVoltageControl
  | ChargeTerminationTimerControl
  | ThermalRegulationControl
  | MiscOperationControl
  | SystemStatus
  | Fault
  | VendorPartRevisionStatus
deriving DecidableEq

/-- The `Register as u8` discriminants. -/
def Register.toU8 : Register → Nat
  | .InputSourceControl => 0x00
  | .PowerOnConfiguration => 0x01
  | .ChargeCurrentControl => 0x02
  | .PreChargeTerminationCurrentControl => 0x03
  | .ChargeVoltageControl => 0x04
  | .ChargeTerminationTimerControl => 0x05
  | .ThermalRegulationControl => 0x06
  | .MiscOperationControl => 0x07
  | .SystemStatus => 0x08
  | .Fault => 0x09
  | .VendorPartRevisionStatus => 0x0A

/-- `const ADDRESS: u8 = 0x6B` (lib.rs line 32). -/
def ADDRESS : Nat := 0x6B

/-- `enum InputVoltageLimit` (lib.rs lines 52-69), 16 variants on 4 bits. -/
inductive InputVoltageLimit where
  | V3_88 | V3_96 | V4_04 | V4_12
  | V4_2  | V4_28 | V4_36 | V4_44
  | V4_52 | V4_6  | V4_68 | V4_76
  | V4_84 | V4_92 | V5    | V5_08
deriving DecidableEq, Fintype

/-- `impl Into<u8> for InputVoltageLimit`: `self as u8`. -/
def InputVoltageLimit.intoU8 : InputVoltageLimit → Nat
  | .V3_88 => 0b0000
  | .V3_96 => 0b0001
  | .V4_04 => 0b0010
  | .V4_12 => 0b0011
  | .V4_2  => 0b0100
  | .V4_28 => 0b0101
  | .V4_36 => 0b0110
  | .V4_44 => 0b0111
  | .V4_52 => 0b1000
  | .V4_6  => 0b1001
  | .V4_68 => 0b1010
  | .V4_76 => 0b1011
  | .V4_84 => 0b1100
  | .V4_92 => 0b1101
  | .V5    => 0b1110
  | .V5_08 => 0b1111

/-- The variant of `InputVoltageLimit` with a given discriminant, if any. -/
def InputVoltageLimit.ofDisc : Nat → Option InputVoltageLimit
  | 0b0000 => some .V3_88
  | 0b0001 => some .V3_96
  | 0b0010 => some .V4_04
  | 0b0011 => some .V4_12
  | 0b0100 => some .V4_2
  | 0b0101 => some .V4_28
  | 0b0110 => some .V4_36
  | 0b0111 => some .V4_44
  | 0b1000 => some .V4_52
  | 0b1001 => some .V4_6
  | 0b1010 => some .V4_68
  | 0b1011 => some .V4_76
  | 0b1100 => some .V4_84
  | 0b1101 => some .V4_92
  | 0b1110 => some .V5
  | 0b1111 => some .V5_08
  | _ => none

/-- `impl From<u8> for InputVoltageLimit` (lib.rs lines 77-81):
`unsafe { mem::transmute(val & 0b111) }`.  Note the mask is `0b111`
(3 bits) in the source, although the field is 4 bits wide. -/
def InputVoltageLimit.fromU8 (val : Nat) : Option InputVoltageLimit :=
  InputVoltageLimit.ofDisc (val &&& 0b111)

/-- `enum InputCurrentLimit` (lib.rs lines 86-95), 8 variants on 3 bits. -/
inductive InputCurrentLimit where
  | MA100 | MA150 | MA500 | MA900
  | MA1200 | MA1500 | MA2000 | MA3000
deriving DecidableEq, Fintype

/-- `impl Into<u8> for InputCurrentLimit`: `self as u8`. -/
def InputCurrentLimit.intoU8 : InputCurrentLimit → Nat
  | .MA100  => 0b000
  | .MA150  => 0b001
  | .MA500  => 0b010
  | .MA900  => 0b011
  | .MA1200 => 0b100
  | .MA1500 => 0b101
  | .MA2000 => 0b110
  | .MA3000 => 0b111

/-- The variant of `InputCurrentLimit` with a given discriminant, if any. -/
def InputCurrentLimit.ofDisc : Nat → Option InputCurrentLimit
  | 0b000 => some .MA100
  | 0b001 => some .MA150
  | 0b010 => some .MA500
  | 0b011 => some .MA900
  | 0b100 => some .MA1200
  | 0b101 => some .MA1500
  | 0b110 => some .MA2000
  | 0b111 => some .MA3000
  | _ => none

/-- `impl From<u8> for InputCurrentLimit` (lib.rs lines 103-107):
`unsafe { mem::transmute(val & 0b111) }`. -/
def InputCurrentLimit.fromU8 (val : Nat) : Option InputCurrentLimit :=
  InputCurrentLimit.ofDisc (val &&& 0b111)

/-- `enum ChargerConfiguration` (lib.rs lines 131-135): three variants,
`ChargeDisabled = 0b00`, `ChargeBattery = 0b01`, `OTG = 0b10`, with the
source comment `// can also be 0b11` on `OTG`. -/
inductive ChargerConfiguration where
  | ChargeDisabled | ChargeBattery | OTG
deriving DecidableEq, Fintype

/-- `impl Into<u8> for ChargerConfiguration`: `self as u8`. -/
def ChargerConfiguration.intoU8 : ChargerConfiguration → Nat
  | .ChargeDisabled => 0b00
  | .ChargeBattery => 0b01
  | .OTG => 0b10

/-- The variant of `ChargerConfiguration` with a given discriminant, if any.
Discriminant `0b11` has no variant. -/
def ChargerConfiguration.ofDisc : Nat → Option ChargerConfiguration
  | 0b00 => some .ChargeDisabled
  | 0b01 => some .ChargeBattery
  | 0b10 => some .OTG
  | _ => none

/-- `impl From<u8> for ChargerConfiguration` (lib.rs lines 143-147):
`unsafe { mem::transmute(val & 0b11) }`.  For `val & 0b11 = 0b11` the
transmute lands on no variant (undefined behaviour), modelled as `none`. -/
def ChargerConfiguration.fromU8 (val : Nat) : Option ChargerConfiguration :=
  ChargerConfiguration.ofDisc (val &&& 0b11)

/-- `enum MinimumSystemVoltage` (lib.rs lines 152-161), 8 variants on 3 bits. -/
inductive MinimumSystemVoltage where
  | V3 | V3_1 | V3_2 | V3_3
  | V3_4 | V3_5 | V3_6 | V3_7
deriving DecidableEq, Fintype

/-- `impl Into<u8> for MinimumSystemVoltage`: `self as u8`. -/
def MinimumSystemVoltage.intoU8 : MinimumSystemVoltage → Nat
  | .V3   => 0b000
  | .V3_1 => 0b001
  | .V3_2 => 0b010
  | .V3_3 => 0b011
  | .V3_4 => 0b100
  | .V3_5 => 0b101
  | .V3_6 => 0b110
  | .V3_7 => 0b111

/-- The variant of `MinimumSystemVoltage` with a given discriminant, if any. -/
def MinimumSystemVoltage.ofDisc : Nat → Option MinimumSystemVoltage
  | 0b000 => some .V3
  | 0b001 => some .V3_1
  | 0b010 => some .V3_2
  | 0b011 => some .V3_3
  | 0b100 => some .V3_4
  | 0b101 => some .V3_5
  | 0b110 => some .V3_6
  | 0b111 => some .V3_7
  | _ => none

/-- `impl From<u8> for MinimumSystemVoltage` (lib.rs lines 169-173):
`unsafe { mem::transmute(val & 0b111) }`. -/
def MinimumSystemVoltage.fromU8 (val : Nat) : Option MinimumSystemVoltage :=
  MinimumSystemVoltage.ofDisc (val &&& 0b111)

/-- `bitfield! { pub struct InputSourceControl(u8); ... }` (lib.rs 109-116). -/
structure InputSourceControl where
  byte : Nat
deriving DecidableEq

/-- `pub bool, hiz, set_hiz : 7` — getter. -/
def InputSourceControl.hiz (r : InputSourceControl) : Bool :=
  getBits r.byte 7 1 == 1

/-- `pub bool, hiz, set_hiz : 7` — setter. -/
def InputSourceControl.set_hiz (r : InputSourceControl) (v : Bool) :
    InputSourceControl :=
  ⟨setBits r.byte 7 1 (if v then 1 else 0)⟩

/-- `pub u8, from into InputVoltageLimit, input_voltage_limit,
set_input_voltage_limit : 6, 3` — getter (bits 6..3 then `From<u8>`). -/
def InputSourceControl.input_voltage_limit (r : InputSourceControl) :
    Option InputVoltageLimit :=
  InputVoltageLimit.fromU8 (getBits r.byte 3 4)

/-- `set_input_voltage_limit` — setter (encode via `Into<u8>`, insert at
bits 6..3). -/
def InputSourceControl.set_input_voltage_limit (r : InputSourceControl)
    (v : InputVoltageLimit) : InputSourceControl :=
  ⟨setBits r.byte 3 4 v.intoU8⟩

/-- `pub u8, from into InputCurrentLimit, input_current_limit,
set_input_current_limit : 2, 0` — getter. -/
def InputSourceControl.input_current_limit (r : InputSourceControl) :
    Option InputCurrentLimit :=
  InputCurrentLimit.fromU8 (getBits r.byte 0 3)

/-- `set_input_current_limit` — setter (bits 2..0). -/
def InputSourceControl.set_input_current_limit (r : InputSourceControl)
    (v : InputCurrentLimit) : InputSourceControl :=
  ⟨setBits r.byte 0 3 v.intoU8⟩

/-- `impl Default for InputSourceControl` (lib.rs 118-126): start from raw 0,
then `set_hiz(false)`, `set_input_voltage_limit(V4_36)`,
`set_input_current_limit(MA100)`. -/
def InputSourceControl.default : InputSourceControl :=
  (((InputSourceControl.mk 0).set_hiz false).set_input_voltage_limit
      InputVoltageLimit.V4_36).set_input_current_limit InputCurrentLimit.MA100

/-- `bitfield! { pub struct PowerOnConfiguration(u8); ... }` (lib.rs 175-183). -/
structure PowerOnConfiguration where
  byte : Nat
deriving DecidableEq

/-- `pub bool, register_reset, set_reset : 7` — getter. -/
def PowerOnConfiguration.register_reset (r : PowerOnConfiguration) : Bool :=
  getBits r.byte 7 1 == 1

/-- `pub bool, register_reset, set_reset : 7` — setter. -/
def PowerOnConfiguration.set_reset (r : PowerOnConfiguration) (v : Bool) :
    PowerOnConfiguration :=
  ⟨setBits r.byte 7 1 (if v then 1 else 0)⟩

/-- `pub bool, watchdog_reset, set_watchdog_reset : 6` — getter. -/
def PowerOnConfiguration.watchdog_reset (r : PowerOnConfiguration) : Bool :=
  getBits r.byte 6 1 == 1

/-- `pub bool, watchdog_reset, set_watchdog_reset : 6` — setter. -/
def PowerOnConfiguration.set_watchdog_reset (r : PowerOnConfiguration)
    (v : Bool) : PowerOnConfiguration :=
  ⟨setBits r.byte 6 1 (if v then 1 else 0)⟩

/-- `pub u8, from into ChargerConfiguration, charger_configuration,
set_charger_configuration : 5, 4` — getter. -/
def PowerOnConfiguration.charger_configuration (r : PowerOnConfiguration) :
    Option ChargerConfiguration :=
  ChargerConfiguration.fromU8 (getBits r.byte 4 2)

/-- `set_charger_configuration` — setter (bits 5..4). -/
def PowerOnConfiguration.set_charger_configuration (r : PowerOnConfiguration)
    (v : ChargerConfiguration) : PowerOnConfiguration :=
  ⟨setBits r.byte 4 2 v.intoU8⟩

/-- `pub u8, from into MinimumSystemVoltage, minimum_system_voltage,
set_minimum_system_voltage : 3, 1` — getter. -/
def PowerOnConfiguration.minimum_system_voltage (r : PowerOnConfiguration) :
    Option MinimumSystemVoltage :=
  MinimumSystemVoltage.fromU8 (getBits r.byte 1 3)

/-- `set_minimum_system_voltage` — setter (bits 3..1). -/
def PowerOnConfiguration.set_minimum_system_voltage (r : PowerOnConfiguration)
    (v : MinimumSystemVoltage) : PowerOnConfiguration :=
  ⟨setBits r.byte 1 3 v.intoU8⟩

/-- `impl Default for PowerOnConfiguration` (lib.rs 185-193): start from raw
`0b0000_0001` ("Always set lsb to 1"), then
`set_charger_configuration(ChargeBattery)`,
`set_minimum_system_voltage(V3_5)`. -/
def PowerOnConfiguration.default : PowerOnConfiguration :=
  ((PowerOnConfiguration.mk 0b00000001).set_charger_configuration
      ChargerConfiguration.ChargeBattery).set_minimum_system_voltage
    MinimumSystemVoltage.V3_5

/-- `bitfield! { pub struct MiscOperationControl(u8); ... }` (lib.rs 195-204). -/
structure MiscOperationControl where
  byte : Nat
deriving DecidableEq

/-- `pub bool, dpdm_detection, set_dpdm_detection : 7` — getter. -/
def MiscOperationControl.dpdm_detection (r : MiscOperationControl) : Bool :=
  getBits r.byte 7 1 == 1

/-- `pub bool, dpdm_detection, set_dpdm_detection : 7` — setter. -/
def MiscOperationControl.set_dpdm_detection (r : MiscOperationControl)
    (v : Bool) : MiscOperationControl :=
  ⟨setBits r.byte 7 1 (if v then 1 else 0)⟩

/-- `pub bool, safety_timer_slowed, set_safety_timer_slowed : 6` — getter. -/
def MiscOperationControl.safety_timer_slowed (r : MiscOperationControl) :
    Bool :=
  getBits r.byte 6 1 == 1

/-- `pub bool, safety_timer_slowed, set_safety_timer_slowed : 6` — setter. -/
def MiscOperationControl.set_safety_timer_slowed (r : MiscOperationControl)
    (v : Bool) : MiscOperationControl :=
  ⟨setBits r.byte 6 1 (if v then 1 else 0)⟩

/-- `pub bool, battery_fet_disabled, set_battery_fet_disabled : 5` — getter. -/
def MiscOperationControl.battery_fet_disabled (r : MiscOperationControl) :
    Bool :=
  getBits r.byte 5 1 == 1

/-- `pub bool, battery_fet_disabled, set_battery_fet_disabled : 5` — setter. -/
def MiscOperationControl.set_battery_fet_disabled (r : MiscOperationControl)
    (v : Bool) : MiscOperationControl :=
  ⟨setBits r.byte 5 1 (if v then 1 else 0)⟩

/-- `pub bool, charge_fault_interrupt, set_charge_fault_interrupt : 1` —
getter. -/
def MiscOperationControl.charge_fault_interrupt (r : MiscOperationControl) :
    Bool :=
  getBits r.byte 1 1 == 1

/-- `pub bool, charge_fault_interrupt, set_charge_fault_interrupt : 1` —
setter. -/
def MiscOperationControl.set_charge_fault_interrupt (r : MiscOperationControl)
    (v : Bool) : MiscOperationControl :=
  ⟨setBits r.byte 1 1 (if v then 1 else 0)⟩

/-- `pub bool, battery_fault_interrupt, set_battery_fault_interrupt : 0` —
getter. -/
def MiscOperationControl.battery_fault_interrupt (r : MiscOperationControl) :
    Bool :=
  getBits r.byte 0 1 == 1

/-- `pub bool, battery_fault_interrupt, set_battery_fault_interrupt : 0` —
setter. -/
def MiscOperationControl.set_battery_fault_interrupt
    (r : MiscOperationControl) (v : Bool) : MiscOperationControl :=
  ⟨setBits r.byte 0 1 (if v then 1 else 0)⟩

/-- `impl Default for MiscOperationControl` (lib.rs 206-213): start from raw
`0b00001000`, then `set_charge_fault_interrupt(true)`,
`set_battery_fault_interrupt(true)`. -/
def MiscOperationControl.default : MiscOperationControl :=
  ((MiscOperationControl.mk 0b00001000).set_charge_fault_interrupt
      true).set_battery_fault_interrupt true

/-- `enum VbusStatus` (lib.rs 249-254). -/
inductive VbusStatus where
  | Unknown | UsbHost | Adapter | Otg
deriving DecidableEq

/-- The variant of `VbusStatus` with a given discriminant, if any. -/
def VbusStatus.ofDisc : Nat → Option VbusStatus
  | 0b00 => some .Unknown
  | 0b01 => some .UsbHost
  | 0b10 => some .Adapter
  | 0b11 => some .Otg
  | _ => none

/-- `impl From<u8> for VbusStatus` (lib.rs 256-260):
`unsafe { mem::transmute(val & 0b111) }` (mask `0b111` in the source even
though the field is 2 bits wide). -/
def VbusStatus.fromU8 (val : Nat) : Option VbusStatus :=
  VbusStatus.ofDisc (val &&& 0b111)

/-- `enum ChargeStatus` (lib.rs 264-269). -/
inductive ChargeStatus where
  | NotCharging | PreCharge | FastCharge | ChargeDone
deriving DecidableEq

/-- The variant of `ChargeStatus` with a given discriminant, if any. -/
def ChargeStatus.ofDisc : Nat → Option ChargeStatus
  | 0b00 => some .NotCharging
  | 0b01 => some .PreCharge
  | 0b10 => some .FastCharge
  | 0b11 => some .ChargeDone
  | _ => none

/-- `impl From<u8> for ChargeStatus` (lib.rs 271-275):
`unsafe { mem::transmute(val & 0b11) }`. -/
def ChargeStatus.fromU8 (val : Nat) : Option ChargeStatus :=
  ChargeStatus.ofDisc (val &&& 0b11)

/-- `enum DpmStatus` (lib.rs 279-282). -/
inductive DpmStatus where
  | NotDynamicPowerManagement | Vindpm
deriving DecidableEq

/-- The variant of `DpmStatus` with a given discriminant, if any. -/
def DpmStatus.ofDisc : Nat → Option DpmStatus
  | 0b0 => some .NotDynamicPowerManagement
  | 0b1 => some .Vindpm
  | _ => none

/-- `impl From<u8> for DpmStatus` (lib.rs 284-288):
`unsafe { mem::transmute(val & 0b1) }`. -/
def DpmStatus.fromU8 (val : Nat) : Option DpmStatus :=
  DpmStatus.ofDisc (val &&& 0b1)

/-- `enum PowerStatus` (lib.rs 292-295). -/
inductive PowerStatus where
  | NotGood | Good
deriving DecidableEq

/-- The variant of `PowerStatus` with a given discriminant, if any. -/
def PowerStatus.ofDisc : Nat → Option PowerStatus
  | 0b0 => some .NotGood
  | 0b1 => some .Good
  | _ => none

/-- `impl From<u8> for PowerStatus` (lib.rs 297-301):
`unsafe { mem::transmute(val & 0b1) }`. -/
def PowerStatus.fromU8 (val : Nat) : Option PowerStatus :=
  PowerStatus.ofDisc (val &&& 0b1)

/-- `enum ThermalStatus` (lib.rs 305-308). -/
inductive ThermalStatus where
  | Normal | Regulated
deriving DecidableEq

/-- The variant of `ThermalStatus` with a given discriminant, if any. -/
def ThermalStatus.ofDisc : Nat → Option ThermalStatus
  | 0b0 => some .Normal
  | 0b1 => some .Regulated
  | _ => none

/-- `impl From<u8> for ThermalStatus` (lib.rs 310-314):
`unsafe { mem::transmute(val & 0b1) }`. -/
def ThermalStatus.fromU8 (val : Nat) : Option ThermalStatus :=
  ThermalStatus.ofDisc (val &&& 0b1)

/-- `enum VsysStatus` (lib.rs 318-321). -/
inductive VsysStatus where
  | NotRegulated | Regulated
deriving DecidableEq

/-- The variant of `VsysStatus` with a given discriminant, if any. -/
def VsysStatus.ofDisc : Nat → Option VsysStatus
  | 0b0 => some .NotRegulated
  | 0b1 => some .Regulated
  | _ => none

/-- `impl From<u8> for VsysStatus` (lib.rs 323-327):
`unsafe { mem::transmute(val & 0b1) }`. -/
def VsysStatus.fromU8 (val : Nat) : Option VsysStatus :=
  VsysStatus.ofDisc (val &&& 0b1)

/-- `bitfield! { pub struct SystemStatus(u8); ... }` (lib.rs 329-339),
read-only register: getters only. -/
structure SystemStatus where
  byte : Nat
deriving DecidableEq

/-- `pub u8, into VbusStatus, vbus_status, _ : 7, 6`. -/
def SystemStatus.vbus_status (r : SystemStatus) : Option VbusStatus :=
  VbusStatus.fromU8 (getBits r.byte 6 2)

/-- `pub u8, into ChargeStatus, charge_status, _ : 5, 4`. -/
def SystemStatus.charge_status (r : SystemStatus) : Option ChargeStatus :=
  ChargeStatus.fromU8 (getBits r.byte 4 2)

/-- `pub u8, into DpmStatus, dpm_status, _ : 3, 3`. -/
def SystemStatus.dpm_status (r : SystemStatus) : Option DpmStatus :=
  DpmStatus.fromU8 (getBits r.byte 3 1)

/-- `pub u8, into PowerStatus, power_status, _ : 2, 2`. -/
def SystemStatus.power_status (r : SystemStatus) : Option PowerStatus :=
  PowerStatus.fromU8 (getBits r.byte 2 1)

/-- `pub u8, into ThermalStatus, thermal_status, _ : 1, 1`. -/
def SystemStatus.thermal_status (r : SystemStatus) : Option ThermalStatus :=
  ThermalStatus.fromU8 (getBits r.byte 1 1)

/-- `pub u8, into VsysStatus, vsys_status, _ : 0, 0`. -/
def SystemStatus.vsys_status (r : SystemStatus) : Option VsysStatus :=
  VsysStatus.fromU8 (getBits r.byte 0 1)

/-- `enum ThermistorFault` (lib.rs 384-389). -/
inductive ThermistorFault where
  | Normal | Cold | Hot | Unknown
deriving DecidableEq

/-- `impl From<u8> for ThermistorFault` (lib.rs 391-400): a plain `match` on
`val & 0b111`, hence total. -/
def ThermistorFault.fromU8 (val : Nat) : ThermistorFault :=
  match val &&& 0b111 with
  | 0b000 => ThermistorFault.Normal
  | 0b101 => ThermistorFault.Cold
  | 0b110 => ThermistorFault.Hot
  | _ => ThermistorFault.Unknown

/-- A bus transaction of the `embedded_hal::blocking::i2c` traits as the
driver issues it: either `write(addr, bytes)` or
`write_read(addr, bytes, buffer)` with `readLen` the buffer length. -/
inductive Op where
  | write (addr : Nat) (bytes : List Nat)
  | writeRead (addr : Nat) (wbytes : List Nat) (readLen : Nat)
deriving DecidableEq

/-- Model of the i2c bus handle: what each primitive answers.
`writeResult = none` is success; `writeReadResult` either fails with an
error or returns the single byte read into the one-byte buffer. -/
structure I2C (E : Type) where
  writeResult : Nat → List Nat → Option E
  writeReadResult : Nat → List Nat → Except E Nat

/-- `enum Error<E>` (lib.rs 20-22). -/
inductive Error (E : Type) where
  | I2C (e : E)

/-- `fn write_register` (lib.rs 239-244): one `i2c.write(ADDRESS,
&[register as u8, value])`, error mapped through `Error::I2C`.  Returns the
trace of bus transactions issued together with the `Result`. -/
def write_register {E : Type} (i2c : I2C E) (register : Register)
    (value : Nat) : List Op × Except (Error E) Unit :=
  ([Op.write ADDRESS [register.toU8, value]],
    match i2c.writeResult ADDRESS [register.toU8, value] with
    | some e => Except.error (Error.I2C e)
    | none => Except.ok ())

/-- `pub fn set_input_source_control` (lib.rs 227-229). -/
def set_input_source_control {E : Type} (i2c : I2C E)
    (input_source_control : InputSourceControl) :
    List Op × Except (Error E) Unit :=
  write_register i2c Register.InputSourceControl input_source_control.byte

/-- `pub fn set_power_on_configuration` (lib.rs 231-233). -/
def set_power_on_configuration {E : Type} (i2c : I2C E)
    (power_on_configuration : PowerOnConfiguration) :
    List Op × Except (Error E) Unit :=
  write_register i2c Register.PowerOnConfiguration power_on_configuration.byte

/-- `pub fn set_misc_operation_control` (lib.rs 235-237). -/
def set_misc_operation_control {E : Type} (i2c : I2C E)
    (misc_operation_control : MiscOperationControl) :
    List Op × Except (Error E) Unit :=
  write_register i2c Register.MiscOperationControl misc_operation_control.byte

/-- `fn read_register` (lib.rs 424-430): one
`i2c.write_read(ADDRESS, &[register as u8], &mut data)` with a one-byte
buffer, error mapped through `Error::I2C`, returning `data[0]`. -/
def read_register {E : Type} (i2c : I2C E) (register : Register) :
    List Op × Except (Error E) Nat :=
  ([Op.writeRead ADDRESS [register.toU8] 1],
    match i2c.writeReadResult ADDRESS [register.toU8] with
    | Except.error e => Except.error (Error.I2C e)
    | Except.ok b => Except.ok b)

/-- `pub fn system_status` (lib.rs 414-417): read the SystemStatus register
and wrap the byte. -/
def system_status {E : Type} (i2c : I2C E) :
    List Op × Except (Error E) SystemStatus :=
  let r := read_register i2c Register.SystemStatus
  (r.1, r.2.map SystemStatus.mk)

/-- The field mask has exactly `w` bits. -/
theorem fieldMask_lt (w : Nat) : fieldMask w < 2 ^ w :=
  Nat.sub_lt (Nat.two_pow_pos w) Nat.one_pos

/-- A value below `2 ^ w` shifted left by `lsb` stays below `2 ^ 8` when the
field fits in the byte. -/
theorem shiftLeft_lt_256 (x w lsb : Nat) (hx : x < 2 ^ w)
    (hw : lsb + w ≤ 8) : x <<< lsb < 256 := by
  rw [Nat.shiftLeft_eq]
  calc x * 2 ^ lsb < 2 ^ w * 2 ^ lsb :=
        mul_lt_mul_of_pos_right hx (pow_pos (by norm_num) lsb)
    _ = 2 ^ (w + lsb) := (pow_add 2 w lsb).symm
    _ ≤ 2 ^ 8 := Nat.pow_le_pow_right (by norm_num) (by omega)

/-- A register byte stays a byte under any field write. -/
theorem setBits_lt (b lsb w v : Nat) (hw : lsb + w ≤ 8) :
    setBits b lsb w v < 256 := by
  refine Nat.or_lt_two_pow (n := 8) ?_ ?_
  · exact Nat.and_lt_two_pow b
      (Nat.xor_lt_two_pow (by norm_num)
        (shiftLeft_lt_256 _ w lsb (fieldMask_lt w) hw))
  · exact shiftLeft_lt_256 _ w lsb (Nat.and_lt_two_pow v (fieldMask_lt w)) hw

/-- Frame property of the `bitfield` crate setter: a field write leaves
every bit outside the field's range unchanged (for byte-sized registers). -/
theorem testBit_setBits_outside (b lsb w v i : Nat) (hb : b < 256)
    (hw : lsb + w ≤ 8) (h : i < lsb ∨ lsb + w ≤ i) :
    (setBits b lsb w v).testBit i = b.testBit i := by
  have h255 : (255 : Nat) = 2 ^ 8 - 1 := rfl
  rw [setBits, fieldMask, h255]
  simp only [Nat.testBit_or, Nat.testBit_and, Nat.testBit_xor,
    Nat.testBit_shiftLeft, Nat.testBit_two_pow_sub_one]
  rcases h with h | h
  · have h1 : ¬ (lsb ≤ i) := by omega
    have h2 : i < 8 := by omega
    simp [h1, h2]
  · have h1 : lsb ≤ i := by omega
    have h2 : ¬ (i - lsb < w) := by omega
    by_cases h3 : i < 8
    · simp [h1, h2, h3]
    · have h4 : b.testBit i = false := by
        refine Nat.testBit_lt_two_pow (lt_of_lt_of_le hb ?_)
        calc (256 : Nat) = 2 ^ 8 := rfl
          _ ≤ 2 ^ i := Nat.pow_le_pow_right (by norm_num) (by omega)
      simp [h1, h2, h3, h4]

/-- Claim C1: decode after encode is the identity on variants for every
FieldValue type with both directions.  This FAILS in the code: the
`From<u8>` impl of `InputVoltageLimit` masks with `0b111` although the
field is 4 bits wide, so every variant with the top bit set decodes back
wrongly; at `V4_52` (pattern `0b1000`) the round trip returns `V3_88`.
The other three codecs do round-trip. -/
theorem c1_inputVoltageLimit_roundtrip_fails :
    InputVoltageLimit.fromU8 InputVoltageLimit.V4_52.intoU8 =
      some InputVoltageLimit.V3_88 ∧
    some InputVoltageLimit.V3_88 ≠ some InputVoltageLimit.V4_52 ∧
    (∀ v : InputCurrentLimit, InputCurrentLimit.fromU8 v.intoU8 = some v) ∧
    (∀ v : ChargerConfiguration,
      ChargerConfiguration.fromU8 v.intoU8 = some v) ∧
    (∀ v : MinimumSystemVoltage,
      MinimumSystemVoltage.fromU8 v.intoU8 = some v) := by
  decide

/-- Claim C2: every Field Codec decode is total on inputs masked to the
field's bit width.  This FAILS in the code for `ChargerConfiguration`: the
field is 2 bits wide, and on the masked input `0b11` the transmute lands on
a discriminant with no variant (undefined behaviour, modelled `none`).  The
`ThermistorFault` part of the claim does hold: `from(0b011)` is `Unknown`. -/
theorem c2_decode_totality_fails_at_0b11 :
    ChargerConfiguration.fromU8 0b11 = none ∧
    ThermistorFault.fromU8 0b011 = ThermistorFault.Unknown := by
  decide

/-- Claim C3: each writable register's `default()` produces the documented
power-on byte: `InputSourceControl` `0b0_0110_000` (hiz = false,
voltage = V4_36, current = MA100), `PowerOnConfiguration` `0b0_0_01_101_1`,
`MiscOperationControl` `0b0000_1011` with both fault-interrupt bits set. -/
theorem c3_default_bytes :
    InputSourceControl.default.byte = 0b00110000 ∧
    InputSourceControl.default.hiz = false ∧
    InputSourceControl.default.input_voltage_limit =
      some InputVoltageLimit.V4_36 ∧
    InputSourceControl.default.input_current_limit =
      some InputCurrentLimit.MA100 ∧
    PowerOnConfiguration.default.byte = 0b00011011 ∧
    Nat.testBit PowerOnConfiguration.default.byte 7 = false ∧
    Nat.testBit PowerOnConfiguration.default.byte 6 = false ∧
    PowerOnConfiguration.default.charger_configuration =
      some ChargerConfiguration.ChargeBattery ∧
    PowerOnConfiguration.default.minimum_system_voltage =
      some MinimumSystemVoltage.V3_5 ∧
    Nat.testBit PowerOnConfiguration.default.byte 0 = true ∧
    MiscOperationControl.default.byte = 0b00001011 ∧
    MiscOperationControl.default.charge_fault_interrupt = true ∧
    MiscOperationControl.default.battery_fault_interrupt = true := by
  decide

/-- Claim C4: the `ChargerConfiguration` codec is asymmetric many-to-one,
decoding both `0b10` and `0b11` to `OTG` while encoding `OTG` as `0b10`.
This FAILS in the code at `0b11`: the transmute of discriminant `3` lands
on no variant (undefined behaviour, modelled `none`) instead of `OTG`.
Encode of `OTG` is `0b10`, decode of `0b10` is `OTG`, and
`decode(encode(v)) = v` holds for all three variants. -/
theorem c4_chargerConfiguration_otg :
    ChargerConfiguration.intoU8 ChargerConfiguration.OTG = 0b10 ∧
    ChargerConfiguration.fromU8 0b10 = some ChargerConfiguration.OTG ∧
    ChargerConfiguration.fromU8 0b11 = none ∧
    (∀ v : ChargerConfiguration,
      ChargerConfiguration.fromU8 v.intoU8 = some v) := by
  decide

/-- Claim C5: `ThermistorFault` decode is exactly the non-uniform lookup
table on the input masked to 3 bits: `0b000` to Normal, `0b101` to Cold,
`0b110` to Hot, every other 3-bit pattern to Unknown. -/
theorem c5_thermistorFault_table (v : Nat) :
    ThermistorFault.fromU8 v =
      (if v % 8 = 0 then ThermistorFault.Normal
       else if v % 8 = 5 then ThermistorFault.Cold
       else if v % 8 = 6 then ThermistorFault.Hot
       else ThermistorFault.Unknown) := by
  have hm : v &&& 7 = v % 8 := by
    simpa using Nat.and_pow_two_sub_one_eq_mod v 3
  have h8 : v % 8 < 8 := Nat.mod_lt _ (by norm_num)
  unfold ThermistorFault.fromU8
  rw [show (0b111 : Nat) = 7 from rfl, hm]
  have hcases : v % 8 = 0 ∨ v % 8 = 1 ∨ v % 8 = 2 ∨ v % 8 = 3 ∨ v % 8 = 4 ∨
      v % 8 = 5 ∨ v % 8 = 6 ∨ v % 8 = 7 := by omega
  rcases hcases with h | h | h | h | h | h | h | h <;> rw [h] <;> rfl

/-- Claim C6: for every writable register, every starting byte, every field
and every written value, the field's setter changes only bits inside the
field's declared range; every bit outside the range keeps its prior value.
One conjunct per setter of the three writable registers, with the field's
declared range spelled out in the bit-index condition. -/
theorem c6_setter_frame :
    (∀ (b : Nat) (v : Bool) (i : Nat), b < 256 → i < 7 ∨ 7 < i →
      Nat.testBit ((InputSourceControl.mk b).set_hiz v).byte i =
        Nat.testBit b i) ∧
    (∀ (b : Nat) (v : InputVoltageLimit) (i : Nat), b < 256 →
      i < 3 ∨ 6 < i →
      Nat.testBit ((InputSourceControl.mk b).set_input_voltage_limit v).byte
          i = Nat.testBit b i) ∧
    (∀ (b : Nat) (v : InputCurrentLimit) (i : Nat), b < 256 → 2 < i →
      Nat.testBit ((InputSourceControl.mk b).set_input_current_limit v).byte
          i = Nat.testBit b i) ∧
    (∀ (b : Nat) (v : Bool) (i : Nat), b < 256 → i < 7 ∨ 7 < i →
      Nat.testBit ((PowerOnConfiguration.mk b).set_reset v).byte i =
        Nat.testBit b i) ∧
    (∀ (b : Nat) (v : Bool) (i : Nat), b < 256 → i < 6 ∨ 6 < i →
      Nat.testBit ((PowerOnConfiguration.mk b).set_watchdog_reset v).byte i =
        Nat.testBit b i) ∧
    (∀ (b : Nat) (v : ChargerConfiguration) (i : Nat), b < 256 →
      i < 4 ∨ 5 < i →
      Nat.testBit
          ((PowerOnConfiguration.mk b).set_charger_configuration v).byte i =
        Nat.testBit b i) ∧
    (∀ (b : Nat) (v : MinimumSystemVoltage) (i : Nat), b < 256 →
      i < 1 ∨ 3 < i →
      Nat.testBit
          ((PowerOnConfiguration.mk b).set_minimum_system_voltage v).byte i =
        Nat.testBit b i) ∧
    (∀ (b : Nat) (v : Bool) (i : Nat), b < 256 → i < 7 ∨ 7 < i →
      Nat.testBit ((MiscOperationControl.mk b).set_dpdm_detection v).byte i =
        Nat.testBit b i) ∧
    (∀ (b : Nat) (v : Bool) (i : Nat), b < 256 → i < 6 ∨ 6 < i →
      Nat.testBit
          ((MiscOperationControl.mk b).set_safety_timer_slowed v).byte i =
        Nat.testBit b i) ∧
    (∀ (b : Nat) (v : Bool) (i : Nat), b < 256 → i < 5 ∨ 5 < i →
      Nat.testBit
          ((MiscOperationControl.mk b).set_battery_fet_disabled v).byte i =
        Nat.testBit b i) ∧
    (∀ (b : Nat) (v : Bool) (i : Nat), b < 256 → i < 1 ∨ 1 < i →
      Nat.testBit
          ((MiscOperationControl.mk b).set_charge_fault_interrupt v).byte i =
        Nat.testBit b i) ∧
    (∀ (b : Nat) (v : Bool) (i : Nat), b < 256 → 0 < i →
      Nat.testBit
          ((MiscOperationControl.mk b).set_battery_fault_interrupt v).byte
          i = Nat.testBit b i) := by
  refine ⟨fun b v i hb h => ?_, fun b v i hb h => ?_, fun b v i hb h => ?_,
    fun b v i hb h => ?_, fun b v i hb h => ?_, fun b v i hb h => ?_,
    fun b v i hb h => ?_, fun b v i hb h => ?_, fun b v i hb h => ?_,
    fun b v i hb h => ?_, fun b v i hb h => ?_, fun b v i hb h => ?_⟩
  · exact testBit_setBits_outside b 7 1 _ i hb (by norm_num) (by omega)
  · exact testBit_setBits_outside b 3 4 _ i hb (by norm_num) (by omega)
  · exact testBit_setBits_outside b 0 3 _ i hb (by norm_num) (by omega)
  · exact testBit_setBits_outside b 7 1 _ i hb (by norm_num) (by omega)
  · exact testBit_setBits_outside b 6 1 _ i hb (by norm_num) (by omega)
  · exact testBit_setBits_outside b 4 2 _ i hb (by norm_num) (by omega)
  · exact testBit_setBits_outside b 1 3 _ i hb (by norm_num) (by omega)
  · exact testBit_setBits_outside b 7 1 _ i hb (by norm_num) (by omega)
  · exact testBit_setBits_outside b 6 1 _ i hb (by norm_num) (by omega)
  · exact testBit_setBits_outside b 5 1 _ i hb (by norm_num) (by omega)
  · exact testBit_setBits_outside b 1 1 _ i hb (by norm_num) (by omega)
  · exact testBit_setBits_outside b 0 1 _ i hb (by norm_num) (by omega)

/-- Witness for C6: three concrete instantiations of the frame theorem,
one per writable register, with hypotheses discharged at concrete input. -/
theorem c6_setter_frame_witness :
    Nat.testBit
        ((InputSourceControl.mk 0b10101010).set_input_voltage_limit
          InputVoltageLimit.V5_08).byte 7 = Nat.testBit 0b10101010 7 ∧
    Nat.testBit
        ((PowerOnConfiguration.mk 0b11111111).set_charger_configuration
          ChargerConfiguration.OTG).byte 0 = Nat.testBit 0b11111111 0 ∧
    Nat.testBit
        ((MiscOperationControl.mk 0b00001000).set_charge_fault_interrupt
          true).byte 3 = Nat.testBit 0b00001000 3 :=
  ⟨c6_setter_frame.2.1 0b10101010 InputVoltageLimit.V5_08 7 (by decide)
      (Or.inr (by decide)),
   c6_setter_frame.2.2.2.2.2.1 0b11111111 ChargerConfiguration.OTG 0
      (by decide) (Or.inl (by decide)),
   c6_setter_frame.2.2.2.2.2.2.2.2.2.2.1 0b00001000 true 3 (by decide)
      (Or.inr (by decide))⟩

/-- Claim C7: `set_input_source_control` with the default value issues
exactly one bus write transaction, to device address `0x6B`, with payload
`[0x00, default byte]`, and no other bus operation, whatever the bus
answers. -/
theorem c7_set_input_source_control_default_trace :
    ∀ (E : Type) (i2c : I2C E),
      (set_input_source_control i2c InputSourceControl.default).1 =
        [Op.write 0x6B [0x00, 0b00110000]] := by
  intro E i2c
  rfl

/-- Masking a value already below `2 ^ 3` with `0b111` is the identity. -/
theorem and_seven_of_lt (x : Nat) (hx : x < 8) : x &&& 7 = x := by
  have h1 := Nat.and_pow_two_sub_one_eq_mod x 3
  norm_num at h1
  rw [h1, Nat.mod_eq_of_lt hx]

/-- Claim C8: `system_status` issues a single combined write-then-read
transaction at `0x6B` with write payload `[0x08]` and a one-byte read; the
returned register is the byte the bus answered, and `vbus_status()` decodes
bits 7 and 6 of that byte (e.g. `0b01000000` yields `UsbHost`). -/
theorem c8_system_status :
    (∀ (E : Type) (i2c : I2C E),
      (system_status i2c).1 = [Op.writeRead 0x6B [0x08] 1]) ∧
    (∀ (E : Type) (i2c : I2C E) (b : Nat),
      i2c.writeReadResult ADDRESS [0x08] = Except.ok b →
      (system_status i2c).2 = Except.ok (SystemStatus.mk b)) ∧
    (∀ b : Nat, (SystemStatus.mk b).vbus_status =
      some (if (b >>> 6) % 4 = 0 then VbusStatus.Unknown
            else if (b >>> 6) % 4 = 1 then VbusStatus.UsbHost
            else if (b >>> 6) % 4 = 2 then VbusStatus.Adapter
            else VbusStatus.Otg)) ∧
    (SystemStatus.mk 0b01000000).vbus_status = some VbusStatus.UsbHost := by
  refine ⟨fun E i2c => rfl, fun E i2c b h => ?_, fun b => ?_, by decide⟩
  · have ht : Register.toU8 Register.SystemStatus = 0x08 := rfl
    simp only [system_status, read_register, ht]
    rw [h]
    rfl
  · have hm : getBits b 6 2 = (b >>> 6) % 4 := by
      have := Nat.and_pow_two_sub_one_eq_mod (b >>> 6) 2
      norm_num at this
      simp [getBits, fieldMask, this]
    have h4 : (b >>> 6) % 4 < 4 := Nat.mod_lt _ (by norm_num)
    simp only [SystemStatus.vbus_status, VbusStatus.fromU8]
    rw [show (0b111 : Nat) = 7 from rfl, hm,
      and_seven_of_lt _ (lt_trans h4 (by norm_num))]
    have hcases : (b >>> 6) % 4 = 0 ∨ (b >>> 6) % 4 = 1 ∨
        (b >>> 6) % 4 = 2 ∨ (b >>> 6) % 4 = 3 := by omega
    rcases hcases with h | h | h | h <;> rw [h] <;> rfl

/-- A concrete bus whose write-read answers the byte `0b01000000`. -/
def busUsbHost : I2C Unit where
  writeResult := fun _ _ => none
  writeReadResult := fun _ _ => Except.ok 0b01000000

/-- Witness for C8: on the concrete bus `busUsbHost`, `system_status`
returns the register holding `0b01000000`. -/
theorem c8_system_status_witness :
    (system_status busUsbHost).2 = Except.ok (SystemStatus.mk 0b01000000) :=
  c8_system_status.2.1 Unit busUsbHost 0b01000000 rfl

/-- One call to a public setter of `PowerOnConfiguration`, with its
argument. -/
inductive POCCall where
  | reset (v : Bool)
  | watchdog_reset (v : Bool)
  | charger_configuration (v : ChargerConfiguration)
  | minimum_system_voltage (v : MinimumSystemVoltage)

/-- Apply one `PowerOnConfiguration` setter call. -/
def POCCall.apply (r : PowerOnConfiguration) : POCCall → PowerOnConfiguration
  | .reset v => r.set_reset v
  | .watchdog_reset v => r.set_watchdog_reset v
  | .charger_configuration v => r.set_charger_configuration v
  | .minimum_system_voltage v => r.set_minimum_system_voltage v

/-- Every `PowerOnConfiguration` setter keeps the byte a byte. -/
theorem POCCall.poc_apply_lt (r : PowerOnConfiguration) (c : POCCall) :
    (POCCall.apply r c).byte < 256 := by
  cases c
  all_goals exact setBits_lt _ _ _ _ (by norm_num)

/-- No `PowerOnConfiguration` setter touches bit 0 (field ranges are 7, 6,
5..4 and 3..1). -/
theorem POCCall.apply_bit0 (r : PowerOnConfiguration) (c : POCCall)
    (hb : r.byte < 256) :
    Nat.testBit (POCCall.apply r c).byte 0 = Nat.testBit r.byte 0 := by
  cases c
  · exact testBit_setBits_outside r.byte 7 1 _ 0 hb (by norm_num) (by omega)
  · exact testBit_setBits_outside r.byte 6 1 _ 0 hb (by norm_num) (by omega)
  · exact testBit_setBits_outside r.byte 4 2 _ 0 hb (by norm_num) (by omega)
  · exact testBit_setBits_outside r.byte 1 3 _ 0 hb (by norm_num) (by omega)

/-- Bit 0 survives any sequence of `PowerOnConfiguration` setter calls. -/
theorem POCCall.foldl_bit0 (ops : List POCCall) (r : PowerOnConfiguration)
    (hb : r.byte < 256) (h0 : Nat.testBit r.byte 0 = true) :
    Nat.testBit (List.foldl POCCall.apply r ops).byte 0 = true := by
  induction ops generalizing r with
  | nil => exact h0
  | cons c rest ih =>
    rw [List.foldl_cons]
    exact ih (POCCall.apply r c) (POCCall.poc_apply_lt r c)
      ((POCCall.apply_bit0 r c hb).trans h0)

/-- Claim C9: bit 0 of a `PowerOnConfiguration` value is always 1: it is 1
in `default()`, and it stays 1 after any sequence of calls to the public
setters (`set_reset`, `set_watchdog_reset`, `set_charger_configuration`,
`set_minimum_system_voltage`) with any arguments. -/
theorem c9_poc_bit0_always_one :
    Nat.testBit PowerOnConfiguration.default.byte 0 = true ∧
    ∀ ops : List POCCall,
      Nat.testBit
        (List.foldl POCCall.apply PowerOnConfiguration.default ops).byte 0 =
        true := by
  refine ⟨by decide, fun ops => POCCall.foldl_bit0 ops _ (by decide)
    (by decide)⟩

/-- One call to a public setter of `MiscOperationControl`, with its
argument. -/
inductive MOCCall where
  | dpdm_detection (v : Bool)
  | safety_timer_slowed (v : Bool)
  | battery_fet_disabled (v : Bool)
  | charge_fault_interrupt (v : Bool)
  | battery_fault_interrupt (v : Bool)

/-- Apply one `MiscOperationControl` setter call. -/
def MOCCall.apply (r : MiscOperationControl) : MOCCall → MiscOperationControl
  | .dpdm_detection v => r.set_dpdm_detection v
  | .safety_timer_slowed v => r.set_safety_timer_slowed v
  | .battery_fet_disabled v => r.set_battery_fet_disabled v
  | .charge_fault_interrupt v => r.set_charge_fault_interrupt v
  | .battery_fault_interrupt v => r.set_battery_fault_interrupt v

/-- Every `MiscOperationControl` setter keeps the byte a byte. -/
theorem MOCCall.moc_apply_lt (r : MiscOperationControl) (c : MOCCall) :
    (MOCCall.apply r c).byte < 256 := by
  cases c
  all_goals exact setBits_lt _ _ _ _ (by norm_num)

/-- No `MiscOperationControl` setter touches bits 2, 3 or 4 (the setters
cover only bits 7, 6, 5, 1 and 0). -/
theorem MOCCall.apply_reserved (r : MiscOperationControl) (c : MOCCall)
    (i : Nat) (hb : r.byte < 256) (hi : i = 2 ∨ i = 3 ∨ i = 4) :
    Nat.testBit (MOCCall.apply r c).byte i = Nat.testBit r.byte i := by
  cases c
  · exact testBit_setBits_outside r.byte 7 1 _ i hb (by norm_num) (by omega)
  · exact testBit_setBits_outside r.byte 6 1 _ i hb (by norm_num) (by omega)
  · exact testBit_setBits_outside r.byte 5 1 _ i hb (by norm_num) (by omega)
  · exact testBit_setBits_outside r.byte 1 1 _ i hb (by norm_num) (by omega)
  · exact testBit_setBits_outside r.byte 0 1 _ i hb (by norm_num) (by omega)

/-- Bits 2, 3 and 4 survive any sequence of `MiscOperationControl` setter
calls. -/
theorem MOCCall.foldl_reserved (ops : List MOCCall)
    (r : MiscOperationControl) (hb : r.byte < 256) (i : Nat)
    (hi : i = 2 ∨ i = 3 ∨ i = 4) :
    Nat.testBit (List.foldl MOCCall.apply r ops).byte i =
      Nat.testBit r.byte i := by
  induction ops generalizing r with
  | nil => rfl
  | cons c rest ih =>
    rw [List.foldl_cons,
      ih (MOCCall.apply r c) (MOCCall.moc_apply_lt r c)]
    exact MOCCall.apply_reserved r c i hb hi

/-- Claim C10: bits 2, 3 and 4 of `MiscOperationControl` are unreachable by
the public setters, so starting from `default()` and after any sequence of
setter calls with any arguments, bit 3 is still 1 and bits 2 and 4 are
still 0. -/
theorem c10_moc_reserved_bits :
    ∀ ops : List MOCCall,
      Nat.testBit
          (List.foldl MOCCall.apply MiscOperationControl.default ops).byte
          3 = true ∧
      Nat.testBit
          (List.foldl MOCCall.apply MiscOperationControl.default ops).byte
          2 = false ∧
      Nat.testBit
          (List.foldl MOCCall.apply MiscOperationControl.default ops).byte
          4 = false := by
  intro ops
  refine ⟨?_, ?_, ?_⟩ <;>
    rw [MOCCall.foldl_reserved ops _ (by decide) _ (by decide)] <;> decide
